import Mathlib

/-!
Shallow embedding of the biogas ingestion-and-aggregation pipeline
(`data-pipeline/processors/csv_processor.py`,
`data-pipeline/scripts/load_to_database.py`,
`shared/data_layer/models.py`) together with theorems settling the
frozen behavioural claims about it.

Conventions of the embedding:
* pandas cell values of an object column are modelled by `PVal`:
  a string cell, the float `NaN` a missing CSV value becomes, the Python
  `None` object (which never occurs in a column read from CSV but does
  occur in the source's allowed-value set), and a boolean produced by
  coercion;
* timestamps are seconds since the epoch (`Nat`); `pd.to_datetime(...,
  errors='coerce')` is an external library call and is modelled by an
  explicit `parse : String → Option Nat` argument shared by validator
  and transformer, `none` standing for `NaT`;
* numeric sensor values are exact rationals (`ℚ`); a nullable SQL or
  pandas value is an `Option`;
* the SQLite engine's batch insert is an explicit fallible function
  `List DbRow → List DbRow → Except String (List DbRow)` threaded
  through the loader, and a raised Python exception is `Except.error`.
-/

namespace Biogas

/-- A pandas cell of an object-dtype column: a string, the float `NaN`
(what a missing value of a textual CSV column becomes), the Python
`None` object, or a coerced boolean. -/
inductive PVal where
  | str (s : String)
  | nan
  | pynone
  | pbool (b : Bool)
  deriving DecidableEq, Repr

/-- The allowed-value set `{'t', 'f', 'T', 'F', None}` of
`process_chunk`'s boolean-coercion test (csv_processor.py line 189).
Note it contains Python `None`, not `NaN`. -/
def boolDomain : List PVal := [.str "t", .str "f", .str "T", .str "F", .pynone]

/-- `Series.map({'t': True, 'T': True, 'f': False, 'F': False})`
(csv_processor.py line 190): values outside the dict become `NaN`. -/
def mapBool : PVal → PVal
  | .str "t" => .pbool true
  | .str "T" => .pbool true
  | .str "f" => .pbool false
  | .str "F" => .pbool false
  | _ => .nan

/-- The per-column boolean coercion of `process_chunk`
(csv_processor.py lines 184-190): if every unique value of the column
lies in `boolDomain` the column is mapped through `mapBool`, otherwise
it is left untouched. -/
def coerce_bool_column (col : List PVal) : List PVal :=
  if col.all (fun v => boolDomain.contains v) then col.map mapBool else col

/-! ### Derived metrics (csv_processor.py `_calculate_derived_metrics`) -/

/-- `gas_quality_score = ch4 * 0.7 + (100 - co2) * 0.3`
(csv_processor.py lines 201-205), over exact rationals. -/
def gas_quality_score (ch4 co2 : ℚ) : ℚ :=
  ch4 * (7/10) + (100 - co2) * (3/10)

/-- `compressor_efficiency = discharge_pressure / (motor_amps + 1)`
(csv_processor.py lines 208-212). -/
def compressor_efficiency (pressure amps : ℚ) : ℚ :=
  pressure / (amps + 1)

/-- `temp_differential = discharge_temp - suction_temp`
(csv_processor.py lines 215-219). -/
def temp_differential (discharge suction : ℚ) : ℚ :=
  discharge - suction

/-- `pressure_ratio = discharge_pressure / (suction_pressure + 0.1)`
(csv_processor.py lines 222-226). -/
def pressure_ratio (discharge suction : ℚ) : ℚ :=
  discharge / (suction + 1/10)

/-- Row-wise application of a binary derived metric: pandas arithmetic
propagates `NaN` (here `none`) when either operand is missing. -/
def rowMetric (f : ℚ → ℚ → ℚ) : Option ℚ → Option ℚ → Option ℚ
  | some a, some b => some (f a b)
  | _, _ => none

/-! ### Timestamp handling of `process_chunk` and `validate_csv` -/

/-- A raw CSV row as far as the timestamp logic is concerned: the text
of its `timestamp` column. -/
structure RawRow where
  timestamp_raw : String
  deriving DecidableEq, Repr

/-- A row after `pd.to_datetime(..., errors='coerce', utc=True)`:
the parsed timestamp or `none` for `NaT`. -/
structure ProcessedRow where
  timestamp : Option Nat
  deriving DecidableEq, Repr

/-- The row-dropping part of `process_chunk` (csv_processor.py lines
167-177): parse every row's timestamp (`errors='coerce'`), then drop
the rows whose timestamp is `NaT` (`dropna(subset=['timestamp'])`). -/
def process_chunk (parse : String → Option Nat) (chunk : List RawRow) :
    List ProcessedRow :=
  (chunk.map (fun r => ({ timestamp := parse r.timestamp_raw } : ProcessedRow))).filter
    (fun r => r.timestamp.isSome)

/-- The timestamp check of `validate_csv` on one sampled chunk
(csv_processor.py lines 94-98): parse with `errors='coerce'` and count
the `NaT` results. -/
def validate_timestamp_issues (parse : String → Option Nat)
    (chunk : List RawRow) : Nat :=
  (chunk.map (fun r => parse r.timestamp_raw)).countP (fun t => t.isNone)

/-- A concrete stand-in for the external timestamp parser
(`pd.to_datetime` with `errors='coerce'`): the two malformed literals
fail to parse, everything else parses. -/
def parseTs : String → Option Nat
  | "bad" => none
  | "oops" => none
  | _ => some 0

/-! ### Loader (`load_to_database.py`) -/

/-- A row of the `sensor_readings` table, restricted to the column the
loader always carries over (`map_columns`, load_to_database.py lines
54-55): the timestamp. -/
structure DbRow where
  timestamp : Option Nat
  deriving DecidableEq, Repr

/-- `map_columns` (load_to_database.py lines 49-75): builds the
database frame from the processed chunk, one output row per input row. -/
def map_columns (chunk : List ProcessedRow) : List DbRow :=
  chunk.map (fun r => { timestamp := r.timestamp })

/-- Fuel-driven worker for `chunksOf`; the fuel is an upper bound on
the list length, so the recursion is structural (and hence
kernel-computable). -/
def chunksOfGo (n : Nat) : Nat → List α → List (List α)
  | _, [] => []
  | 0, _ :: _ => []
  | fuel + 1, x :: xs =>
    match n with
    | 0 => []
    | m + 1 => (x :: xs.take m) :: chunksOfGo n fuel (xs.drop m)

/-- Split a list into consecutive batches of `n` (the `chunksize`
batching of `DataFrame.to_sql` and the `chunksize` of `pd.read_csv`). -/
def chunksOf (n : Nat) (l : List α) : List (List α) :=
  chunksOfGo n l.length l

/-- `load_chunk_to_db` (load_to_database.py lines 78-91): map the
chunk's columns, then write it through the engine in internal batches
of `batch_size` (`to_sql(..., chunksize=batch_size)`).  `ib` is the
engine's batch insert; a raised exception is `Except.error`.  The pair
returned on success is the engine's new store plus the function's
Python return value, which is `None` (here `Unit`): no row count. -/
def load_chunk_to_db (ib : List DbRow → List DbRow → Except String (List DbRow))
    (store : List DbRow) (chunk : List ProcessedRow) (batch_size : Nat) :
    Except String (List DbRow × Unit) := do
  let s ← (chunksOf batch_size (map_columns chunk)).foldlM ib store
  pure (s, ())

/-- A SQLite batch `INSERT` that succeeds: appends the batch to the
table. -/
def appendIns (store batch : List DbRow) : Except String (List DbRow) :=
  Except.ok (store ++ batch)

/-- An engine whose insert fails (models a storage-layer
`WriteFailure`) whenever the batch contains a designated poison row. -/
def failIns (poison : DbRow) (store batch : List DbRow) :
    Except String (List DbRow) :=
  if batch.contains poison then Except.error "WriteFailure"
  else Except.ok (store ++ batch)

/-- The full ingestion run of `main` (load_to_database.py lines
177-188): stream the file in chunks of `read_chunk` rows
(`process_file`, csv_processor.py lines 273-293), transform each chunk
and load it, starting from an empty `sensor_readings` table. -/
def run_etl (parse : String → Option Nat) (read_chunk batch_size : Nat)
    (rows : List RawRow) : Except String (List DbRow) :=
  (chunksOf read_chunk rows).foldlM
    (fun store chunk =>
      (load_chunk_to_db appendIns store (process_chunk parse chunk) batch_size).map
        (fun x => x.1))
    ([] : List DbRow)

/-! ### System health score (csv_processor.py lines 228-244) -/

/-- The inputs of the health-score computation for one row: the values
of the fault-named columns in that row and the motor-amps value.
Missing pandas values are `none`. -/
structure HealthRow where
  faultFlags : List (Option Bool)
  amps : Option ℚ
  deriving DecidableEq, Repr

/-- `df[fault_cols].sum(axis=1)` (line 234): pandas sums booleans as
0/1 and skips `NaN`, so the row sum is the number of `true` flags. -/
def faultFlagSum (flags : List (Option Bool)) : Nat :=
  flags.countP (fun f => f == some true)

/-- `fault_score = 100 - (df[fault_cols].sum(axis=1) * 10)` (line 234);
never `NaN` because the pandas row sum skips missing flags. -/
def fault_score (row : HealthRow) : ℚ :=
  100 - 10 * (faultFlagSum row.faultFlags : ℚ)

/-- `current_score = 100 - (amps / 100 * 20)` (line 239); `NaN` (none)
when the row's amps value is missing. -/
def current_score (row : HealthRow) : Option ℚ :=
  row.amps.map (fun a => 100 - a / 100 * 20)

/-- `Series.clip(0, 100)` (line 244). -/
def clip0100 (x : ℚ) : ℚ := max 0 (min 100 x)

/-- `system_health_score` (lines 228-244): the factors are included
per COLUMN — the fault factor when any fault-named column exists
(`hasFaultCols`), the current factor when the motor-amps column exists
(`hasAmpsCol`).  `np.mean(health_factors, axis=0)` propagates a `NaN`
current score, and `clip` keeps `NaN`; with no factor the column is
never created (`none`). -/
def system_health_score (hasFaultCols hasAmpsCol : Bool) (row : HealthRow) :
    Option ℚ :=
  match hasFaultCols, hasAmpsCol with
  | false, false => none
  | true, false => some (clip0100 (fault_score row))
  | false, true => (current_score row).map clip0100
  | true, true =>
    match current_score row with
    | none => none
    | some c => some (clip0100 ((fault_score row + c) / 2))

/-! ### Aggregator (`calculate_hourly_aggregates`, load_to_database.py
lines 94-132) and the `hourly_aggregates` table (models.py lines
94-124). -/

/-- A `sensor_readings` row as seen by the aggregation query:
timestamp in seconds, nullable numeric and boolean sensor columns. -/
structure Reading where
  timestamp : Nat
  ch4_percent : Option ℚ
  co2_percent : Option ℚ
  gas_flow : Option ℚ
  daily_energy : Option ℚ
  comp_motor_amps : Option ℚ
  comp_discharge_temp : Option ℚ
  system_health_score : Option ℚ
  comp_running : Option Bool
  comp_fault : Option Bool
  blower_fault : Option Bool
  deriving DecidableEq, Repr

/-- SQL `AVG`: ignores NULLs, NULL when every input is NULL. -/
def sqlAvg (l : List (Option ℚ)) : Option ℚ :=
  let v := l.reduceOption
  if v.length = 0 then none else some (v.sum / v.length)

/-- SQL `SUM`: ignores NULLs, NULL when every input is NULL. -/
def sqlSum (l : List (Option ℚ)) : Option ℚ :=
  let v := l.reduceOption
  if v.length = 0 then none else some v.sum

/-- SQL `MAX`: ignores NULLs, NULL when every input is NULL. -/
def sqlMax (l : List (Option ℚ)) : Option ℚ := l.reduceOption.max?

/-- SQL `MIN`: ignores NULLs, NULL when every input is NULL. -/
def sqlMin (l : List (Option ℚ)) : Option ℚ := l.reduceOption.min?

/-- A row of `hourly_aggregates` (models.py lines 94-124). -/
structure HourlyAggregateRow where
  timestamp : Nat
  avg_ch4 : Option ℚ
  avg_co2 : Option ℚ
  avg_flow : Option ℚ
  total_energy : Option ℚ
  avg_comp_amps : Option ℚ
  max_comp_amps : Option ℚ
  avg_comp_temp : Option ℚ
  max_comp_temp : Option ℚ
  avg_health_score : Option ℚ
  min_health_score : Option ℚ
  fault_count : Nat
  uptime_percentage : ℚ
  reading_count : Nat
  null_count : Nat
  deriving DecidableEq, Repr

/-- `datetime(strftime('%Y-%m-%d %H:00:00', timestamp))`: truncation
of a timestamp to its hour bucket. -/
def hourBucket (t : Nat) : Nat := t / 3600 * 3600

/-- One `GROUP BY hour_timestamp` output row of the aggregation query
(load_to_database.py lines 107-122) for the bucket `h`.  `CASE WHEN
comp_fault = 1 OR blower_fault = 1` is true exactly when one of the
flags IS true (NULL = 1 is NULL in SQL), likewise `comp_running = 1`. -/
def aggregateHour (readings : List Reading) (h : Nat) : HourlyAggregateRow :=
  let g := readings.filter (fun r => hourBucket r.timestamp == h)
  { timestamp := h
    avg_ch4 := sqlAvg (g.map (fun r => r.ch4_percent))
    avg_co2 := sqlAvg (g.map (fun r => r.co2_percent))
    avg_flow := sqlAvg (g.map (fun r => r.gas_flow))
    total_energy := sqlSum (g.map (fun r => r.daily_energy))
    avg_comp_amps := sqlAvg (g.map (fun r => r.comp_motor_amps))
    max_comp_amps := sqlMax (g.map (fun r => r.comp_motor_amps))
    avg_comp_temp := sqlAvg (g.map (fun r => r.comp_discharge_temp))
    max_comp_temp := sqlMax (g.map (fun r => r.comp_discharge_temp))
    avg_health_score := sqlAvg (g.map (fun r => r.system_health_score))
    min_health_score := sqlMin (g.map (fun r => r.system_health_score))
    fault_count := g.countP
      (fun r => r.comp_fault == some true || r.blower_fault == some true)
    uptime_percentage :=
      (g.countP (fun r => r.comp_running == some true) : ℚ) * 100 / g.length
    reading_count := g.length
    null_count := g.countP (fun r => r.ch4_percent == none) }

/-- The `SELECT ... GROUP BY hour_timestamp` of the aggregation query:
one row per distinct hour bucket occurring in `sensor_readings`. -/
def hourlyRows (readings : List Reading) : List HourlyAggregateRow :=
  ((readings.map (fun r => hourBucket r.timestamp)).dedup).map
    (aggregateHour readings)

/-- `calculate_hourly_aggregates` (load_to_database.py lines 94-132).
The `start_time`/`end_time` parameters are accepted and never used,
as in the source.  The query is a plain `INSERT INTO hourly_aggregates
... SELECT ... GROUP BY hour_timestamp`: because `timestamp` is
declared `unique=True` (models.py line 102), the statement raises an
`IntegrityError` — leaving the store unchanged, `commit` never reached
— whenever a produced hour bucket already has a row; otherwise the
produced rows are appended. -/
def calculate_hourly_aggregates (aggStore : List HourlyAggregateRow)
    (readings : List Reading) (start_time end_time : Option Nat) :
    Except String (List HourlyAggregateRow) :=
  let rows := hourlyRows readings
  if rows.all (fun row => aggStore.all (fun a => a.timestamp != row.timestamp)) then
    Except.ok (aggStore ++ rows)
  else
    Except.error "UNIQUE constraint failed: hourly_aggregates.timestamp"

/-! ### Concrete fixtures used by witnesses and counterexamples -/

/-- A sensor reading at 01:01:00 (timestamp 3660, hour bucket 3600). -/
def baseReading : Reading :=
  { timestamp := 3660, ch4_percent := some 60, co2_percent := some 35,
    gas_flow := some 10, daily_energy := some 5, comp_motor_amps := some 40,
    comp_discharge_temp := some 80, system_health_score := some 90,
    comp_running := some true, comp_fault := some false,
    blower_fault := some false }

/-- A reading in hour bucket 0 (timestamp 30). -/
def readingHour0 : Reading := { baseReading with timestamp := 30 }

/-- Ten raw rows of which exactly two (`"bad"`, `"oops"`) have
unparsable timestamps. -/
def tenRows : List RawRow :=
  [⟨"1"⟩, ⟨"2"⟩, ⟨"3"⟩, ⟨"bad"⟩, ⟨"4"⟩, ⟨"5"⟩, ⟨"oops"⟩, ⟨"6"⟩, ⟨"7"⟩, ⟨"8"⟩]

/-- Database row used as the loader's write-failure trigger. -/
def poisonDb : DbRow := { timestamp := some 99 }

/-! ### List helper lemmas -/

theorem chunksOfGo_congr (n : Nat) :
    ∀ (fuel fuel' : Nat) (l : List α), l.length ≤ fuel → l.length ≤ fuel' →
      chunksOfGo n fuel l = chunksOfGo n fuel' l := by
  intro fuel
  induction fuel with
  | zero =>
    intro fuel' l hl _
    have : l = [] := List.eq_nil_of_length_eq_zero (Nat.le_zero.mp hl)
    subst this
    cases fuel' <;> rfl
  | succ f ih =>
    intro fuel' l hl hl'
    cases l with
    | nil => cases fuel' <;> rfl
    | cons x xs =>
      cases fuel' with
      | zero => exact absurd hl' (by simp)
      | succ f' =>
        cases n with
        | zero => rfl
        | succ m =>
          simp only [chunksOfGo]
          rw [ih f' (xs.drop m)
            (le_trans (by simp [List.length_drop])
              (Nat.le_of_succ_le_succ hl))
            (le_trans (by simp [List.length_drop])
              (Nat.le_of_succ_le_succ hl'))]

theorem chunksOf_nil (n : Nat) : chunksOf n ([] : List α) = [] := rfl

theorem chunksOf_cons (n : Nat) (x : α) (xs : List α) :
    chunksOf (n + 1) (x :: xs) =
      (x :: xs).take (n + 1) :: chunksOf (n + 1) (xs.drop n) := by
  unfold chunksOf
  simp only [List.length_cons, chunksOfGo, List.take_succ_cons]
  rw [chunksOfGo_congr (n + 1) xs.length (xs.drop n).length (xs.drop n)
    (by simp [List.length_drop]) (le_refl _)]

theorem chunksOf_flatten (n : Nat) :
    ∀ l : List α, (chunksOf (n + 1) l).flatten = l
  | [] => by simp [chunksOf_nil]
  | x :: xs => by
    rw [chunksOf_cons, List.flatten_cons, chunksOf_flatten n (xs.drop n)]
    simp [List.take_succ_cons]
termination_by l => l.length
decreasing_by
  simp only [List.length_cons, List.length_drop]
  omega

theorem foldlM_appendIns (cs : List (List DbRow)) (s : List DbRow) :
    cs.foldlM appendIns s = Except.ok (s ++ cs.flatten) := by
  induction cs generalizing s with
  | nil => simp [pure, Except.pure]
  | cons c cs ih =>
    simp only [List.foldlM_cons, appendIns, List.flatten_cons]
    rw [show (Except.ok (s ++ c) >>= fun b => List.foldlM appendIns b cs) =
        cs.foldlM appendIns (s ++ c) from rfl, ih, List.append_assoc]

theorem countP_add_countP_not (p : α → Bool) (l : List α) :
    l.countP p + l.countP (fun a => !(p a)) = l.length := by
  induction l with
  | nil => simp
  | cons a l ih =>
    by_cases h : p a = true <;>
      simp [List.countP_cons, h, ← ih] <;> omega

theorem process_chunk_append (parse : String → Option Nat)
    (a b : List RawRow) :
    process_chunk parse (a ++ b) =
      process_chunk parse a ++ process_chunk parse b := by
  simp [process_chunk]

theorem map_columns_append (a b : List ProcessedRow) :
    map_columns (a ++ b) = map_columns a ++ map_columns b := by
  simp [map_columns]

theorem load_chunk_appendIns (store : List DbRow) (chunk : List ProcessedRow)
    (bs : Nat) :
    load_chunk_to_db appendIns store chunk (bs + 1) =
      Except.ok (store ++ map_columns chunk, ()) := by
  unfold load_chunk_to_db
  rw [foldlM_appendIns, chunksOf_flatten]
  rfl

theorem run_etl_eq (parse : String → Option Nat) (k bs : Nat)
    (rows : List RawRow) :
    run_etl parse (k + 1) (bs + 1) rows =
      Except.ok (map_columns (process_chunk parse rows)) := by
  unfold run_etl
  have main : ∀ (cs : List (List RawRow)) (s : List DbRow),
      cs.foldlM
        (fun store chunk =>
          (load_chunk_to_db appendIns store (process_chunk parse chunk) (bs + 1)).map
            (fun x => x.1)) s =
        Except.ok (s ++ map_columns (process_chunk parse cs.flatten)) := by
    intro cs
    induction cs with
    | nil => intro s; simp [process_chunk, map_columns, pure, Except.pure]
    | cons c cs ih =>
      intro s
      rw [List.foldlM_cons, load_chunk_appendIns]
      rw [show ((Except.ok (s ++ map_columns (process_chunk parse c), ()) :
            Except String (List DbRow × Unit)).map (fun x => x.1)) =
          Except.ok (s ++ map_columns (process_chunk parse c)) from rfl]
      rw [show ((Except.ok (s ++ map_columns (process_chunk parse c)) :
            Except String (List DbRow)) >>= fun b => List.foldlM _ b cs) =
          cs.foldlM _ (s ++ map_columns (process_chunk parse c)) from rfl, ih]
      rw [List.flatten_cons, process_chunk_append, map_columns_append,
        List.append_assoc]
  rw [main, chunksOf_flatten]
  rfl

/-! ### Claim theorems -/

/-- C1: re-running `calculate_hourly_aggregates` over the same stored
readings is NOT an idempotent upsert: the first run inserts the hour
row, and the second run's plain `INSERT INTO` hits the UNIQUE
constraint on `hourly_aggregates.timestamp` and fails instead of
replacing the row.  Evaluated at the failing input: one reading at
timestamp 3660 whose hour bucket 3600 is already aggregated. -/
theorem aggregator_rerun_hits_unique_constraint :
    calculate_hourly_aggregates [] [baseReading] none none =
      Except.ok (hourlyRows [baseReading]) ∧
    calculate_hourly_aggregates (hourlyRows [baseReading]) [baseReading]
        none none =
      Except.error "UNIQUE constraint failed: hourly_aggregates.timestamp" := by
  constructor <;> rfl

/-- C2: the boolean coercion of `process_chunk` does NOT coerce a
column whose values are t/f plus a missing value: the missing value is
the float `NaN`, which fails the membership test against
`{'t','f','T','F', None}`, so the column `['t', NaN]` is left
untouched (the claim expects `[True, NULL]`).  A column without
missing values is coerced, and a column with a foreign value is left
untouched, as claimed. -/
theorem bool_coercion_skips_columns_with_missing :
    coerce_bool_column [.str "t", .nan] = [.str "t", .nan] ∧
    coerce_bool_column [.str "t", .str "F"] = [.pbool true, .pbool false] ∧
    coerce_bool_column [.str "t", .str "x"] = [.str "t", .str "x"] := by
  refine ⟨rfl, rfl, rfl⟩

/-- C3 counterexample: the caller is NOT told how many rows were
committed — `load_chunk_to_db` returns Python `None` (here `Unit`), so
loading one row and loading three rows hand the caller identical
return values even though the committed counts differ (1 vs 3). -/
theorem loader_returns_no_committed_count :
    (load_chunk_to_db appendIns [] [⟨some 1⟩] 10000).map (fun x => x.2) =
      (load_chunk_to_db appendIns [] [⟨some 1⟩, ⟨some 2⟩, ⟨some 3⟩] 10000).map
        (fun x => x.2) ∧
    (load_chunk_to_db appendIns [] [⟨some 1⟩] 10000).map (fun x => x.1.length) =
      Except.ok 1 ∧
    (load_chunk_to_db appendIns [] [⟨some 1⟩, ⟨some 2⟩, ⟨some 3⟩] 10000).map
        (fun x => x.1.length) =
      Except.ok 3 := by
  refine ⟨rfl, rfl, rfl⟩

/-- C3 (amended): a batch failure inside `load_chunk_to_db` propagates
as an exception, so a failed chunk is never silently treated as
complete; with a succeeding engine the whole mapped chunk is appended;
but no committed-row count is returned to the caller (the function's
value is `None`). -/
theorem loader_failure_propagates :
    (∀ (store : List DbRow) (chunk : List ProcessedRow) (bs : Nat),
        load_chunk_to_db appendIns store chunk (bs + 1) =
          Except.ok (store ++ map_columns chunk, ())) ∧
    load_chunk_to_db (failIns poisonDb) [] [⟨some 1⟩, ⟨some 99⟩] 1 =
      Except.error "WriteFailure" := by
  exact ⟨fun store chunk bs => load_chunk_appendIns store chunk bs, rfl⟩

/-- C8: the derived metrics satisfy the stated identities exactly:
`gas_quality_score(70, 20) = 73`, `compressor_efficiency(100, 50)
= 100/51`, `pressure_ratio(100, 0) = 100/(1/10) = 1000`, and the `+1`
and `+0.1` denominator guards are nonzero at these boundaries. -/
theorem derived_metric_identities :
    rowMetric gas_quality_score (some 70) (some 20) = some 73 ∧
    rowMetric compressor_efficiency (some 100) (some 50) = some (100 / 51) ∧
    rowMetric pressure_ratio (some 100) (some 0) = some 1000 ∧
    (50 : ℚ) + 1 ≠ 0 ∧ (0 : ℚ) + 1 / 10 ≠ 0 := by
  refine ⟨?_, ?_, ?_, by norm_num, by norm_num⟩ <;>
    simp [rowMetric, gas_quality_score, compressor_efficiency,
      pressure_ratio] <;> norm_num

/-- C9: the number of committed rows of a full ingestion run does not
depend on the read chunk size or the loader batch size: for every file
and every pair of positive chunk sizes the run commits exactly the
mapped image of the rows with parsable timestamps. -/
theorem committed_rows_chunk_size_invariant :
    ∀ (parse : String → Option Nat) (rows : List RawRow) (k k' bs bs' : Nat),
      run_etl parse (k + 1) (bs + 1) rows =
        Except.ok (map_columns (process_chunk parse rows)) ∧
      run_etl parse (k + 1) (bs + 1) rows =
        run_etl parse (k' + 1) (bs' + 1) rows := by
  intro parse rows k k' bs bs'
  exact ⟨run_etl_eq parse k bs rows,
    (run_etl_eq parse k bs rows).trans (run_etl_eq parse k' bs' rows).symm⟩

/-- C4 counterexample: given the range `[0, 3599]` covering only hour
bucket 0, the aggregator still produces a row for bucket 3600, built
from the reading at timestamp 3660 that lies outside the range. -/
theorem aggregator_uses_readings_outside_range :
    calculate_hourly_aggregates [] [readingHour0, baseReading]
        (some 0) (some 3599) =
      Except.ok (hourlyRows [readingHour0, baseReading]) ∧
    (hourlyRows [readingHour0, baseReading]).map (fun a => a.timestamp) =
      [0, 3600] ∧
    (aggregateHour [readingHour0, baseReading] 3600).reading_count = 1 ∧
    ¬ (3600 ≤ 3599) := by
  refine ⟨rfl, by decide, by decide, by omega⟩

/-- C4 (amended): `calculate_hourly_aggregates` ignores its
`start_time`/`end_time` parameters entirely — the result is the same
for every range — and every stored reading contributes a row for its
hour bucket. -/
theorem aggregator_ignores_time_range :
    ∀ (aggStore : List HourlyAggregateRow) (readings : List Reading)
      (s e : Option Nat),
      calculate_hourly_aggregates aggStore readings s e =
        calculate_hourly_aggregates aggStore readings none none ∧
      ∀ r ∈ readings, ∃ a, a ∈ hourlyRows readings ∧
        a.timestamp = hourBucket r.timestamp := by
  intro aggStore readings s e
  refine ⟨rfl, ?_⟩
  intro r hr
  refine ⟨aggregateHour readings (hourBucket r.timestamp), ?_, rfl⟩
  exact List.mem_map_of_mem _
    (List.mem_dedup.mpr (List.mem_map_of_mem _ hr))

/-- C4 witness for `aggregator_ignores_time_range`. -/
theorem aggregator_ignores_time_range_witness :
    (calculate_hourly_aggregates [] [readingHour0] (some 0) (some 10) =
      calculate_hourly_aggregates [] [readingHour0] none none) ∧
    ∃ a, a ∈ hourlyRows [readingHour0] ∧
      a.timestamp = hourBucket readingHour0.timestamp :=
  ⟨(aggregator_ignores_time_range [] [readingHour0] (some 0) (some 10)).1,
   (aggregator_ignores_time_range [] [readingHour0] (some 0) (some 10)).2
     readingHour0 (by decide)⟩

/-- C7 counterexample: an hour with 0 readings yields NO aggregate row
at all — the `GROUP BY` over an empty `sensor_readings` table produces
nothing — so its uptime percentage is not "defined as 0": no row
carrying it exists. -/
theorem empty_hour_yields_no_aggregate_row :
    hourlyRows ([] : List Reading) = [] ∧
    calculate_hourly_aggregates [] [] none none = Except.ok [] ∧
    ¬ ∃ a, a ∈ hourlyRows ([] : List Reading) ∧ a.uptime_percentage = 0 := by
  refine ⟨rfl, rfl, ?_⟩
  rintro ⟨a, ha, -⟩
  simp [hourlyRows] at ha

/-- C7 (amended): every produced hourly row groups at least one
reading (so the uptime division never divides by zero), its uptime
percentage satisfies `uptime * count = 100 * running`, and its fault
count is the number of readings with `comp_fault` or `blower_fault`
true; an hour with 0 readings produces no row. -/
theorem hourly_uptime_and_fault_formulas :
    (∀ (readings : List Reading) (a : HourlyAggregateRow),
        a ∈ hourlyRows readings →
        0 < (readings.filter
          (fun r => hourBucket r.timestamp == a.timestamp)).length ∧
        a.reading_count = (readings.filter
          (fun r => hourBucket r.timestamp == a.timestamp)).length ∧
        a.uptime_percentage * ((readings.filter
            (fun r => hourBucket r.timestamp == a.timestamp)).length : ℚ) =
          ((readings.filter
            (fun r => hourBucket r.timestamp == a.timestamp)).countP
              (fun r => r.comp_running == some true) : ℚ) * 100 ∧
        a.fault_count = (readings.filter
          (fun r => hourBucket r.timestamp == a.timestamp)).countP
            (fun r => r.comp_fault == some true ||
              r.blower_fault == some true)) ∧
    hourlyRows ([] : List Reading) = [] := by
  refine ⟨?_, rfl⟩
  intro readings a ha
  obtain ⟨h, hh, rfl⟩ := List.mem_map.mp ha
  obtain ⟨r, hr, hbr⟩ := List.mem_map.mp (List.mem_dedup.mp hh)
  have hrg : r ∈ readings.filter
      (fun r => hourBucket r.timestamp == (aggregateHour readings h).timestamp) :=
    List.mem_filter.mpr ⟨hr, by simp [aggregateHour, hbr]⟩
  have hpos : 0 < (readings.filter
      (fun r => hourBucket r.timestamp == (aggregateHour readings h).timestamp)).length :=
    List.length_pos_of_mem hrg
  have hne : ((readings.filter
      (fun r => hourBucket r.timestamp == (aggregateHour readings h).timestamp)).length : ℚ) ≠ 0 :=
    Nat.cast_ne_zero.mpr (Nat.pos_iff_ne_zero.mp hpos)
  exact ⟨hpos, rfl, div_mul_cancel₀ _ hne, rfl⟩

/-- C7 witness for `hourly_uptime_and_fault_formulas`. -/
theorem hourly_uptime_and_fault_formulas_witness :
    (aggregateHour [baseReading] 3600 ∈ hourlyRows [baseReading]) ∧
    (0 < ([baseReading].filter (fun r => hourBucket r.timestamp ==
      (aggregateHour [baseReading] 3600).timestamp)).length ∧
    (aggregateHour [baseReading] 3600).reading_count =
      ([baseReading].filter (fun r => hourBucket r.timestamp ==
        (aggregateHour [baseReading] 3600).timestamp)).length ∧
    (aggregateHour [baseReading] 3600).uptime_percentage *
        (([baseReading].filter (fun r => hourBucket r.timestamp ==
          (aggregateHour [baseReading] 3600).timestamp)).length : ℚ) =
      (([baseReading].filter (fun r => hourBucket r.timestamp ==
        (aggregateHour [baseReading] 3600).timestamp)).countP
          (fun r => r.comp_running == some true) : ℚ) * 100 ∧
    (aggregateHour [baseReading] 3600).fault_count =
      ([baseReading].filter (fun r => hourBucket r.timestamp ==
        (aggregateHour [baseReading] 3600).timestamp)).countP
          (fun r => r.comp_fault == some true ||
            r.blower_fault == some true)) :=
  ⟨List.mem_map_of_mem _ (List.mem_dedup.mpr
      (List.mem_map_of_mem _ (List.mem_singleton_self baseReading))),
   hourly_uptime_and_fault_formulas.1 [baseReading]
     (aggregateHour [baseReading] 3600)
     (List.mem_map_of_mem _ (List.mem_dedup.mpr
       (List.mem_map_of_mem _ (List.mem_singleton_self baseReading))))⟩

/-- C10: the `null_count` of a produced hourly row counts exactly the
readings of that hour whose `ch4_percent` is NULL, and it is invariant
under any transformation of the readings that preserves timestamps and
the NULL-ness of `ch4_percent` (nulls in other sensor fields never
contribute). -/
theorem null_count_depends_only_on_ch4 :
    (∀ (readings : List Reading) (a : HourlyAggregateRow),
        a ∈ hourlyRows readings →
        a.null_count = (readings.filter
          (fun r => hourBucket r.timestamp == a.timestamp)).countP
            (fun r => r.ch4_percent == none)) ∧
    (∀ (readings : List Reading) (f : Reading → Reading),
        (∀ r, (f r).timestamp = r.timestamp ∧
          (f r).ch4_percent.isNone = r.ch4_percent.isNone) →
        (hourlyRows (readings.map f)).map (fun a => (a.timestamp, a.null_count)) =
          (hourlyRows readings).map (fun a => (a.timestamp, a.null_count))) := by
  constructor
  · intro readings a ha
    obtain ⟨h, _, rfl⟩ := List.mem_map.mp ha
    rfl
  · intro readings f hf
    have hts : ((fun r : Reading => hourBucket r.timestamp) ∘ f) =
        (fun r : Reading => hourBucket r.timestamp) :=
      funext fun r => by
        simp only [Function.comp_apply]
        rw [(hf r).1]
    have hch : ∀ r : Reading, ((f r).ch4_percent == none) =
        (r.ch4_percent == none) := by
      intro r
      have h2 := (hf r).2
      cases hfc : (f r).ch4_percent <;> cases hrc : r.ch4_percent <;>
        simp_all [Option.isNone]
    have hbuckets : (readings.map f).map (fun r => hourBucket r.timestamp) =
        readings.map (fun r => hourBucket r.timestamp) := by
      rw [List.map_map, hts]
    unfold hourlyRows
    rw [hbuckets, List.map_map, List.map_map]
    apply List.map_congr_left
    intro h _
    have hnc : (aggregateHour (readings.map f) h).null_count =
        (aggregateHour readings h).null_count := by
      show ((readings.map f).filter
          (fun r => hourBucket r.timestamp == h)).countP
            (fun r => r.ch4_percent == none) =
        (readings.filter (fun r => hourBucket r.timestamp == h)).countP
          (fun r => r.ch4_percent == none)
      rw [List.filter_map, List.countP_map]
      have hpred : (fun r => hourBucket r.timestamp == h) ∘ f =
          (fun r : Reading => hourBucket r.timestamp == h) :=
        funext fun r => by simp [Function.comp, (hf r).1]
      rw [hpred]
      exact List.countP_congr fun r _ => by
        simp only [Function.comp]
        rw [hch r]
    simp only [Function.comp]
    rw [hnc]
    rfl

/-- C10 witness for `null_count_depends_only_on_ch4`. -/
theorem null_count_depends_only_on_ch4_witness :
    ((aggregateHour [baseReading] 3600).null_count =
      ([baseReading].filter (fun r => hourBucket r.timestamp ==
        (aggregateHour [baseReading] 3600).timestamp)).countP
          (fun r => r.ch4_percent == none)) ∧
    (hourlyRows ([baseReading].map
        (fun r => { r with co2_percent := none }))).map
          (fun a => (a.timestamp, a.null_count)) =
      (hourlyRows [baseReading]).map (fun a => (a.timestamp, a.null_count)) :=
  ⟨null_count_depends_only_on_ch4.1 [baseReading]
     (aggregateHour [baseReading] 3600)
     (List.mem_map_of_mem _ (List.mem_dedup.mpr
       (List.mem_map_of_mem _ (List.mem_singleton_self baseReading)))),
   null_count_depends_only_on_ch4.2 [baseReading]
     (fun r => { r with co2_percent := none }) (fun r => ⟨rfl, rfl⟩)⟩

/-- C5: `process_chunk` drops exactly the rows whose timestamp fails
to parse — output length plus the validator's `timestamp_issues` count
for the same rows equals the input length, and every output row has a
non-null timestamp — and on the concrete 10-row chunk with 2
unparsable timestamps the validator reports 2 and ingestion commits
exactly 8 readings. -/
theorem timestamp_drops_match_validator_count :
    (∀ (parse : String → Option Nat) (chunk : List RawRow),
        (process_chunk parse chunk).length +
          validate_timestamp_issues parse chunk = chunk.length ∧
        ∀ p ∈ process_chunk parse chunk, p.timestamp.isSome) ∧
    validate_timestamp_issues parseTs tenRows = 2 ∧
    (load_chunk_to_db appendIns [] (process_chunk parseTs tenRows)
        10000).map (fun x => x.1.length) = Except.ok 8 := by
  refine ⟨?_, rfl, rfl⟩
  intro parse chunk
  constructor
  · rw [process_chunk, validate_timestamp_issues,
      ← List.countP_eq_length_filter, List.countP_map, List.countP_map]
    have hnot : ((fun t : Option Nat => t.isNone) ∘
          (fun r : RawRow => parse r.timestamp_raw)) =
        (fun r : RawRow =>
          !(((fun p : ProcessedRow => p.timestamp.isSome) ∘
            (fun r : RawRow =>
              ({ timestamp := parse r.timestamp_raw } : ProcessedRow))) r)) := by
      funext r
      simp only [Function.comp_apply]
      cases parse r.timestamp_raw <;> rfl
    rw [hnot]
    exact countP_add_countP_not _ chunk
  · intro p hp
    exact (List.mem_filter.mp hp).2

/-- C5 witness for `timestamp_drops_match_validator_count`. -/
theorem timestamp_drops_match_validator_count_witness :
    ((⟨some 0⟩ : ProcessedRow) ∈ process_chunk parseTs tenRows) ∧
    (⟨some 0⟩ : ProcessedRow).timestamp.isSome :=
  ⟨by decide,
   (timestamp_drops_match_validator_count.1 parseTs tenRows).2
     ⟨some 0⟩ (by decide)⟩

/-- C6 counterexample: a row with two true fault flags but a missing
motor-amps value (both factor columns present) gets a NULL health
score, even though the fault factor is available for the row and the
claim says the score should then be `clip(fault_score) = 80`. -/
theorem health_score_null_despite_available_fault_factor :
    system_health_score true true
      { faultFlags := [some true, some true], amps := none } = none ∧
    clip0100 (fault_score
      { faultFlags := [some true, some true], amps := none }) = 80 := by
  have h2 : faultFlagSum [some true, some true] = 2 := by decide
  exact ⟨rfl, by norm_num [clip0100, fault_score, h2]⟩

/-- C6 (amended): factor availability is per COLUMN, not per row: when
no factor column exists the score is NULL; when the amps column exists
and the row's amps value is missing the score is NULL even if fault
data is present (the missing flags of an existing fault column count
as 0 faults); every non-null score lies in `[0, 100]`, and the extreme
row (50 true faults, amps = 10000) is clipped to 0. -/
theorem health_score_per_column_availability_and_clip :
    (∀ (hf ha : Bool) (row : HealthRow) (v : ℚ),
        system_health_score hf ha row = some v → 0 ≤ v ∧ v ≤ 100) ∧
    (∀ (hf ha : Bool) (row : HealthRow),
        system_health_score hf ha row = none ↔
          (hf = false ∧ ha = false) ∨ (ha = true ∧ row.amps = none)) ∧
    system_health_score true true
      { faultFlags := List.replicate 50 (some true), amps := some 10000 } =
        some 0 := by
  have hclip : ∀ x : ℚ, 0 ≤ clip0100 x ∧ clip0100 x ≤ 100 := fun x =>
    ⟨le_max_left 0 _, max_le (by norm_num) (min_le_left _ _)⟩
  have h50 : faultFlagSum (List.replicate 50 (some true)) = 50 := by decide
  refine ⟨?_, ?_, ?_⟩
  case refine_3 =>
    simp only [system_health_score, current_score, Option.map_some]
    norm_num [clip0100, fault_score, h50]
  · intro hf ha row v hv
    cases hf <;> cases ha <;>
      simp only [system_health_score] at hv
    · exact Option.noConfusion hv
    · cases hamps : row.amps with
      | none =>
        rw [current_score, hamps] at hv
        exact Option.noConfusion hv
      | some a =>
        rw [current_score, hamps] at hv
        exact Option.some.inj hv ▸ hclip _
    · exact Option.some.inj hv ▸ hclip _
    · cases hcs : current_score row with
      | none =>
        rw [hcs] at hv
        exact Option.noConfusion hv
      | some c =>
        rw [hcs] at hv
        exact Option.some.inj hv ▸ hclip _
  · intro hf ha row
    cases hf <;> cases ha <;> cases hamps : row.amps <;>
      simp [system_health_score, current_score, hamps]

/-- C6 witness for `health_score_per_column_availability_and_clip`. -/
theorem health_score_per_column_availability_witness :
    (system_health_score true false
        { faultFlags := [some true, some true], amps := none } = some 80) ∧
    ((0 : ℚ) ≤ 80 ∧ (80 : ℚ) ≤ 100) := by
  have h2 : faultFlagSum [some true, some true] = 2 := by decide
  have h : system_health_score true false
      { faultFlags := [some true, some true], amps := none } = some 80 := by
    simp only [system_health_score]
    norm_num [clip0100, fault_score, h2]
  exact ⟨h, health_score_per_column_availability_and_clip.1 true false
    { faultFlags := [some true, some true], amps := none } 80 h⟩

end Biogas
